import Mathlib

/-!
Verification of the MultiTrackPlayer scheduling and transport engine.

The development shallowly embeds the second (current) iteration of
MultiTrackPlayer.js: the transport state machine (play, pause, stop), the
tempo and meter calculator, the guarded configuration setters, the track
registry with gain and mute handling, and the look-ahead scheduler.
JS numbers are modelled as rationals, JS Maps as insertion-ordered
association lists, console diagnostics as an explicit diagnostic list, and
dispatched CustomEvents as an explicit event list.
-/

namespace MTP

/-- Association list lookup, modelling JS Map.get on an insertion-ordered map. -/
def alGet {α β : Type} [DecidableEq α] (k : α) : List (α × β) → Option β
  | [] => none
  | (a, b) :: rest => if a = k then some b else alGet k rest

/-- Association list update, modelling JS Map.set: replaces the value in place
when the key is present, appends a new entry otherwise. -/
def alSet {α β : Type} [DecidableEq α] (k : α) (v : β) : List (α × β) → List (α × β)
  | [] => [(k, v)]
  | (a, b) :: rest => if a = k then (a, v) :: rest else (a, b) :: alSet k v rest

/-- Association list deletion, modelling JS Map.delete. -/
def alDel {α β : Type} [DecidableEq α] (k : α) : List (α × β) → List (α × β)
  | [] => []
  | (a, b) :: rest => if a = k then rest else (a, b) :: alDel k rest

/-- An opaque handle to a decoded audio sample (an AudioBuffer). -/
abbrev Asset := Nat

/-- Modelled from the spec: the content of one grid cell. The player file under
src stores one opaque buffer per cell; the iteration whose grid also holds a
combined object with primary and accent buffers plus an accent amplitude
multiplier (its caller passes open, slap and slapMultiplier fields) is not
under src, so the combined variant follows the spec text of section 3. -/
inductive Placement
  | single (asset : Asset)
  | combined (primary accent : Asset) (accentMultiplier : ℚ)
  deriving DecidableEq

/-- One trigger command handed to the audio-output collaborator: which sample
to start, at which effective gain, at which exact start time. -/
structure Trigger where
  asset : Asset
  gain : ℚ
  startTime : ℚ
  deriving DecidableEq

/-- One track of the registry: the current gain value of its gain node, the
sparse cell map from column index to placement, the mute flag and the last
desired volume stored for restoration on unmute. -/
structure Track where
  gain : ℚ
  cells : List (Int × Placement)
  isMuted : Bool
  lastVolume : ℚ
  deriving DecidableEq

/-- The whole mutable state of a MultiTrackPlayer instance. -/
structure PlayerState where
  tracks : List (String × Track)
  bpm : ℚ
  tsNum : ℚ
  tsDen : ℚ
  subdivisionNoteValue : ℚ
  loop : Bool
  isPlaying : Bool
  isPaused : Bool
  playbackTime : ℚ
  currentCellIndex : Int
  nextCellTime : ℚ
  masterGain : ℚ
  scheduledSources : List Trigger
  deriving DecidableEq

/-- The notifications dispatched as CustomEvents. -/
inductive Event
  | play
  | pause
  | stop
  | gridCellChanged (columnIndex : Int) (time : ℚ)
  | bpmChanged (bpm : ℚ)
  | timeSignatureChanged (numerator denominator : ℚ)
  | subdivisionChanged (v : ℚ)
  | loopingChanged (l : Bool)
  | trackAdded (trackId : String)
  | trackRemoved (trackId : String)
  | audioAddedToGrid (trackId : String) (columnIndex : Int) (p : Placement)
  | audioRemovedFromGrid (trackId : String) (columnIndex : Int)
  | trackVolumeChanged (trackId : String) (volume : ℚ)
  | trackMuteChanged (trackId : String) (muted : Bool)
  | masterVolumeChanged (volume : ℚ)
  deriving DecidableEq

/-- The console.warn and console.error diagnostics, one constructor per
distinct message site. -/
inductive Diag
  | warnBpmWhilePlaying
  | errBpmNonpositive
  | warnTimeSigWhilePlaying
  | errTimeSigNonpositive
  | warnSubdivisionWhilePlaying
  | errSubdivisionUnsupported
  | warnTrackExists
  | warnRemoveTrackWhilePlaying
  | warnTrackMissing
  | errTrackMissing
  | warnAddAudioWhilePlaying
  | errNegativeColumn
  | warnRemoveAudioWhilePlaying
  | warnVolumeRange
  | warnMasterVolumeRange
  deriving DecidableEq

/-- Result of one public operation: the new state, the events dispatched and
the diagnostics reported, in order. -/
structure OpResult where
  state : PlayerState
  events : List Event
  diags : List Diag
  deriving DecidableEq

/-- The look-ahead horizon in seconds (the field lookAheadTime, 0.1). -/
def lookAheadTime : ℚ := 1 / 10

/-- Duration of a single grid cell in seconds (the private method
calculateCellDuration): a whole note lasts 240 / BPM seconds and a cell is
one subdivisionNoteValue-th of a whole note. -/
def calculateCellDuration (s : PlayerState) : ℚ :=
  (240 / s.bpm) / s.subdivisionNoteValue

/-- Number of grid columns in one measure (the private method getMaxColumns):
numerator times subdivisionNoteValue over denominator, as JS real division. -/
def getMaxColumns (s : PlayerState) : ℚ :=
  s.tsNum * (s.subdivisionNoteValue / s.tsDen)

/-- Clamp to the unit interval, as Math.max(0, Math.min(1, v)). -/
def clamp01 (v : ℚ) : ℚ := max 0 (min 1 v)

/-- The track object freshly created by addTrack: gain node at its default
gain 1, empty cell map, unmuted, last volume 1.0. -/
def newTrack : Track := { gain := 1, cells := [], isMuted := false, lastVolume := 1 }

/-- The state after the constructor runs: defaults of every field. -/
def initialState : PlayerState :=
  { tracks := []
    bpm := 120
    tsNum := 4
    tsDen := 4
    subdivisionNoteValue := 16
    loop := true
    isPlaying := false
    isPaused := false
    playbackTime := 0
    currentCellIndex := -1
    nextCellTime := 0
    masterGain := 1
    scheduledSources := [] }

/-- The play operation: resumes the audio context (external, not modelled),
no-op while already playing, resets position when starting from Stopped,
keeps position when resuming from Paused, then flips the flags and
dispatches the play event. -/
def play (now : ℚ) (s : PlayerState) : OpResult :=
  if s.isPlaying then ⟨s, [], []⟩
  else
    let s1 :=
      if !s.isPaused then
        { s with currentCellIndex := -1, nextCellTime := now, playbackTime := 0 }
      else s
    ⟨{ s1 with isPlaying := true, isPaused := false }, [Event.play], []⟩

/-- The pause operation: no-op unless playing; otherwise flips the flags,
stops and clears every scheduled source, snapshots the elapsed playback
position (clamped at zero) and dispatches the pause event. -/
def pause (now : ℚ) (s : PlayerState) : OpResult :=
  if !s.isPlaying then ⟨s, [], []⟩
  else
    let cd := calculateCellDuration s
    let pt := (s.currentCellIndex : ℚ) * cd + (now - (s.nextCellTime - cd))
    let pt2 := if pt < 0 then 0 else pt
    ⟨{ s with
        isPlaying := false
        isPaused := true
        scheduledSources := []
        playbackTime := pt2 }, [Event.pause], []⟩

/-- The stop operation: no-op when already stopped; otherwise clears the
flags, resets the column pointer to -1 and the playback time to 0, stops and
clears every scheduled source, and dispatches the stop event followed by a
gridCellChanged event with column index -1 and time 0. -/
def stop (s : PlayerState) : OpResult :=
  if !s.isPlaying && !s.isPaused then ⟨s, [], []⟩
  else
    ⟨{ s with
        isPlaying := false
        isPaused := false
        currentCellIndex := -1
        playbackTime := 0
        scheduledSources := [] },
      [Event.stop, Event.gridCellChanged (-1) 0], []⟩

/-- The setBPM operation: rejected while playing or paused, rejected for a
nonpositive argument, otherwise stores the value and dispatches bpmChanged. -/
def setBPM (bpm : ℚ) (s : PlayerState) : OpResult :=
  if s.isPlaying || s.isPaused then ⟨s, [], [Diag.warnBpmWhilePlaying]⟩
  else if bpm ≤ 0 then ⟨s, [], [Diag.errBpmNonpositive]⟩
  else ⟨{ s with bpm := bpm }, [Event.bpmChanged bpm], []⟩

/-- The setTimeSignature operation: rejected while playing or paused,
rejected when either part is nonpositive, otherwise stores both parts and
dispatches timeSignatureChanged. -/
def setTimeSignature (numerator denominator : ℚ) (s : PlayerState) : OpResult :=
  if s.isPlaying || s.isPaused then ⟨s, [], [Diag.warnTimeSigWhilePlaying]⟩
  else if numerator ≤ 0 || denominator ≤ 0 then ⟨s, [], [Diag.errTimeSigNonpositive]⟩
  else
    ⟨{ s with tsNum := numerator, tsDen := denominator },
      [Event.timeSignatureChanged numerator denominator], []⟩

/-- The setSubdivisionNoteValue operation: rejected while playing or paused,
rejected unless the value is 4, 8, 16 or 32, otherwise stores it and
dispatches subdivisionChanged. -/
def setSubdivisionNoteValue (v : ℚ) (s : PlayerState) : OpResult :=
  if s.isPlaying || s.isPaused then ⟨s, [], [Diag.warnSubdivisionWhilePlaying]⟩
  else if !(v = 4 || v = 8 || v = 16 || v = 32) then
    ⟨s, [], [Diag.errSubdivisionUnsupported]⟩
  else ⟨{ s with subdivisionNoteValue := v }, [Event.subdivisionChanged v], []⟩

/-- The setLooping operation: unguarded, stores the flag and dispatches
loopingChanged. -/
def setLooping (l : Bool) (s : PlayerState) : OpResult :=
  ⟨{ s with loop := l }, [Event.loopingChanged l], []⟩

/-- The addTrack operation: rejected when the id already exists; otherwise
appends a fresh track and dispatches trackAdded. The source has no
playing-or-paused guard here. -/
def addTrack (trackId : String) (s : PlayerState) : OpResult :=
  if (alGet trackId s.tracks).isSome then ⟨s, [], [Diag.warnTrackExists]⟩
  else
    ⟨{ s with tracks := s.tracks ++ [(trackId, newTrack)] },
      [Event.trackAdded trackId], []⟩

/-- The removeTrack operation: rejected while playing or paused, rejected for
an unknown id, otherwise removes the track and dispatches trackRemoved. -/
def removeTrack (trackId : String) (s : PlayerState) : OpResult :=
  if s.isPlaying || s.isPaused then ⟨s, [], [Diag.warnRemoveTrackWhilePlaying]⟩
  else if !(alGet trackId s.tracks).isSome then ⟨s, [], [Diag.warnTrackMissing]⟩
  else ⟨{ s with tracks := alDel trackId s.tracks }, [Event.trackRemoved trackId], []⟩

/-- The addAudioToGrid operation: rejected while playing or paused, rejected
for an unknown id or a negative column, otherwise stores the placement in the
cell map and dispatches audioAddedToGrid. -/
def addAudioToGrid (trackId : String) (columnIndex : Int) (p : Placement)
    (s : PlayerState) : OpResult :=
  if s.isPlaying || s.isPaused then ⟨s, [], [Diag.warnAddAudioWhilePlaying]⟩
  else
    match alGet trackId s.tracks with
    | none => ⟨s, [], [Diag.errTrackMissing]⟩
    | some tr =>
      if columnIndex < 0 then ⟨s, [], [Diag.errNegativeColumn]⟩
      else
        ⟨{ s with
            tracks :=
              alSet trackId { tr with cells := alSet columnIndex p tr.cells } s.tracks },
          [Event.audioAddedToGrid trackId columnIndex p], []⟩

/-- The removeAudioFromGrid operation: rejected while playing or paused,
rejected for an unknown id; deletes the cell and dispatches
audioRemovedFromGrid only when the cell was present. -/
def removeAudioFromGrid (trackId : String) (columnIndex : Int)
    (s : PlayerState) : OpResult :=
  if s.isPlaying || s.isPaused then ⟨s, [], [Diag.warnRemoveAudioWhilePlaying]⟩
  else
    match alGet trackId s.tracks with
    | none => ⟨s, [], [Diag.warnTrackMissing]⟩
    | some tr =>
      if (alGet columnIndex tr.cells).isSome then
        ⟨{ s with
            tracks :=
              alSet trackId { tr with cells := alDel columnIndex tr.cells } s.tracks },
          [Event.audioRemovedFromGrid trackId columnIndex], []⟩
      else ⟨s, [], []⟩

/-- The setTrackVolume operation: unguarded by transport state; unknown id is
rejected; an out-of-range volume is clamped with a warning; the live gain is
updated only when the track is not muted; the last desired volume is always
stored; dispatches trackVolumeChanged with the clamped value. -/
def setTrackVolume (trackId : String) (volume : ℚ) (s : PlayerState) : OpResult :=
  match alGet trackId s.tracks with
  | none => ⟨s, [], [Diag.warnTrackMissing]⟩
  | some tr =>
    let rangeDiags := if volume < 0 || volume > 1 then [Diag.warnVolumeRange] else []
    let v := if volume < 0 || volume > 1 then clamp01 volume else volume
    let tr1 := if !tr.isMuted then { tr with gain := v } else tr
    ⟨{ s with tracks := alSet trackId { tr1 with lastVolume := v } s.tracks },
      [Event.trackVolumeChanged trackId v], rangeDiags⟩

/-- The setTrackMuted operation: unknown id is rejected; stores the mute
flag; muting sets the live gain to 0, unmuting restores the stored last
volume; dispatches trackMuteChanged. -/
def setTrackMuted (trackId : String) (isMuted : Bool) (s : PlayerState) : OpResult :=
  match alGet trackId s.tracks with
  | none => ⟨s, [], [Diag.warnTrackMissing]⟩
  | some tr =>
    let tr1 :=
      if isMuted then { tr with isMuted := isMuted, gain := 0 }
      else { tr with isMuted := isMuted, gain := tr.lastVolume }
    ⟨{ s with tracks := alSet trackId tr1 s.tracks },
      [Event.trackMuteChanged trackId isMuted], []⟩

/-- The setMasterVolume operation: clamps with a warning when out of range,
stores the master gain and dispatches masterVolumeChanged. -/
def setMasterVolume (volume : ℚ) (s : PlayerState) : OpResult :=
  let rangeDiags := if volume < 0 || volume > 1 then [Diag.warnMasterVolumeRange] else []
  let v := if volume < 0 || volume > 1 then clamp01 volume else volume
  ⟨{ s with masterGain := v }, [Event.masterVolumeChanged v], rangeDiags⟩

/-- Modelled from the spec: the trigger commands issued for one placement at
one deadline. The single case matches the source scheduler (one buffer source
connected to the track gain node, started at the stored next cell time); the
combined case, whose consuming scheduler iteration is not under src, follows
the spec: two triggers, the accent one with the accent amplitude multiplier
applied on top of the track gain, both at the same stored deadline. -/
def triggersFor (trackGain deadline : ℚ) : Placement → List Trigger
  | Placement.single a => [⟨a, trackGain, deadline⟩]
  | Placement.combined p acc m =>
    [⟨p, trackGain, deadline⟩, ⟨acc, trackGain * m, deadline⟩]

/-- Triggers the scheduler issues for one track at one column: nothing when
the track is muted or the cell is empty, otherwise the triggers of its
placement. -/
def trackTriggers (tr : Track) (col : Int) (deadline : ℚ) : List Trigger :=
  if tr.isMuted then []
  else
    match alGet col tr.cells with
    | some pl => triggersFor tr.gain deadline pl
    | none => []

/-- Triggers the scheduler issues for one column across the whole registry,
in registry iteration order. -/
def cellTriggers (tracks : List (String × Track)) (col : Int) (deadline : ℚ) :
    List Trigger :=
  (tracks.map fun kv => trackTriggers kv.2 col deadline).flatten

/-- Result of one scheduler tick: the new state, the events dispatched and
the triggers issued to the audio-output collaborator. -/
structure SchedResult where
  state : PlayerState
  events : List Event
  triggers : List Trigger
  deriving DecidableEq

/-- The while loop of the private method scheduleAudio, with explicit fuel
bounding the number of iterations: while the next cell time is inside the
look-ahead window, advance the column pointer, wrap or stop at the end of the
measure, dispatch gridCellChanged, issue the triggers of the new column at
the stored deadline, and advance the deadline by one cell duration. -/
def schedLoop (cd maxCols now : ℚ) :
    Nat → PlayerState → List Event → List Trigger → SchedResult
  | 0, s, evs, tgs => ⟨s, evs, tgs⟩
  | Nat.succ fuel, s, evs, tgs =>
    if s.nextCellTime < now + lookAheadTime then
      let idx0 : Int := s.currentCellIndex + 1
      if 0 < maxCols ∧ maxCols ≤ (idx0 : ℚ) ∧ s.loop = false then
        let r := stop { s with currentCellIndex := idx0 }
        ⟨r.state, evs ++ r.events, tgs⟩
      else
        let idx : Int := if 0 < maxCols ∧ maxCols ≤ (idx0 : ℚ) then 0 else idx0
        let newTgs := cellTriggers s.tracks idx s.nextCellTime
        schedLoop cd maxCols now fuel
          { s with
              currentCellIndex := idx
              nextCellTime := s.nextCellTime + cd
              scheduledSources := s.scheduledSources ++ newTgs }
          (evs ++ [Event.gridCellChanged idx s.nextCellTime]) (tgs ++ newTgs)
    else ⟨s, evs, tgs⟩

/-- One scheduler tick: inert unless playing, otherwise runs the look-ahead
loop with the cell duration and column count derived afresh from the current
configuration. -/
def scheduleAudio (fuel : Nat) (now : ℚ) (s : PlayerState) : SchedResult :=
  if !s.isPlaying then ⟨s, [], []⟩
  else schedLoop (calculateCellDuration s) (getMaxColumns s) now fuel s [] []

/-- The onended callback of one scheduled source: drops it from the
in-flight set. -/
def sourceEnded (t : Trigger) (s : PlayerState) : PlayerState :=
  { s with scheduledSources := s.scheduledSources.erase t }

/-- The states reachable from the freshly constructed player by any sequence
of public operations, scheduler ticks and source-completion callbacks. -/
inductive Reachable : PlayerState → Prop
  | init : Reachable initialState
  | rplay (now : ℚ) {s : PlayerState} : Reachable s → Reachable (play now s).state
  | rpause (now : ℚ) {s : PlayerState} : Reachable s → Reachable (pause now s).state
  | rstop {s : PlayerState} : Reachable s → Reachable (stop s).state
  | rsetBPM (b : ℚ) {s : PlayerState} : Reachable s → Reachable (setBPM b s).state
  | rsetTimeSignature (n d : ℚ) {s : PlayerState} :
      Reachable s → Reachable (setTimeSignature n d s).state
  | rsetSubdivisionNoteValue (v : ℚ) {s : PlayerState} :
      Reachable s → Reachable (setSubdivisionNoteValue v s).state
  | rsetLooping (l : Bool) {s : PlayerState} :
      Reachable s → Reachable (setLooping l s).state
  | raddTrack (id : String) {s : PlayerState} :
      Reachable s → Reachable (addTrack id s).state
  | rremoveTrack (id : String) {s : PlayerState} :
      Reachable s → Reachable (removeTrack id s).state
  | raddAudioToGrid (id : String) (col : Int) (p : Placement) {s : PlayerState} :
      Reachable s → Reachable (addAudioToGrid id col p s).state
  | rremoveAudioFromGrid (id : String) (col : Int) {s : PlayerState} :
      Reachable s → Reachable (removeAudioFromGrid id col s).state
  | rsetTrackVolume (id : String) (v : ℚ) {s : PlayerState} :
      Reachable s → Reachable (setTrackVolume id v s).state
  | rsetTrackMuted (id : String) (m : Bool) {s : PlayerState} :
      Reachable s → Reachable (setTrackMuted id m s).state
  | rsetMasterVolume (v : ℚ) {s : PlayerState} :
      Reachable s → Reachable (setMasterVolume v s).state
  | rschedule (fuel : Nat) (now : ℚ) {s : PlayerState} :
      Reachable s → Reachable (scheduleAudio fuel now s).state
  | rsourceEnded (t : Trigger) {s : PlayerState} :
      Reachable s → Reachable (sourceEnded t s)

/-- Updating a key and then looking it up yields the written value. -/
theorem alGet_alSet_self {α β : Type} [DecidableEq α] (k : α) (v : β) :
    ∀ l : List (α × β), alGet k (alSet k v l) = some v := by
  intro l
  induction l with
  | nil => simp [alGet, alSet]
  | cons hd tl ih =>
    obtain ⟨a, b⟩ := hd
    by_cases hak : a = k
    · simp [alGet, alSet, hak]
    · simp [alGet, alSet, hak, ih]

/-- C4: for every BPM > 0 and every subdivision note value S in
{4, 8, 16, 32}, the cell duration computed by the tempo calculator equals
240 / (BPM * S) seconds, for arbitrary time-signature numerator and
denominator (which the computation never reads). -/
theorem claim_C4 (bpm S n d : ℚ) (h : 0 < bpm)
    (hS : S = 4 ∨ S = 8 ∨ S = 16 ∨ S = 32) :
    calculateCellDuration
      { initialState with
          bpm := bpm, subdivisionNoteValue := S, tsNum := n, tsDen := d }
      = 240 / (bpm * S) := by
  simp [calculateCellDuration, div_div]

/-- C4 witness: BPM 120, subdivision 16, time signature 7 over 9. -/
theorem claim_C4_witness :
    (0 : ℚ) < 120
    ∧ ((4 : ℚ) = 4 ∨ (4 : ℚ) = 8 ∨ (4 : ℚ) = 16 ∨ (4 : ℚ) = 32)
    ∧ calculateCellDuration
        { initialState with
            bpm := 120, subdivisionNoteValue := 4, tsNum := 7, tsDen := 9 }
      = 240 / (120 * 4) :=
  ⟨by norm_num, Or.inl rfl, claim_C4 120 4 7 9 (by norm_num) (Or.inl rfl)⟩

/-- C5: for every numerator N > 0, denominator D > 0 and subdivision note
value S that is a multiple of D, the columns-per-measure computation equals
the natural number N * (S / D). -/
theorem claim_C5 (N D S : ℕ) (hN : 0 < N) (hD : 0 < D) (hdvd : D ∣ S) :
    getMaxColumns
      { initialState with
          tsNum := (N : ℚ), tsDen := (D : ℚ), subdivisionNoteValue := (S : ℚ) }
      = ((N * (S / D) : ℕ) : ℚ) := by
  obtain ⟨k, rfl⟩ := hdvd
  have hD0 : (D : ℚ) ≠ 0 := Nat.cast_ne_zero.mpr hD.ne'
  simp [getMaxColumns, Nat.mul_div_cancel_left k hD]
  push_cast
  field_simp

/-- C5 witness: 6/8 meter with sixteenth-note cells gives 12 columns. -/
theorem claim_C5_witness :
    0 < 6 ∧ 0 < 8 ∧ 8 ∣ 16
    ∧ getMaxColumns
        { initialState with
            tsNum := ((6 : ℕ) : ℚ), tsDen := ((8 : ℕ) : ℚ),
            subdivisionNoteValue := ((16 : ℕ) : ℚ) }
      = ((6 * (16 / 8) : ℕ) : ℚ) :=
  ⟨by norm_num, by norm_num, by norm_num,
    claim_C5 6 8 16 (by norm_num) (by norm_num) (by norm_num)⟩

/-- C6 counterexample: from the initial Stopped state, setTimeSignature 4 3
is accepted (no diagnostic, the change notification fires) although the
subdivision note value 16 is not a multiple of 3, and the resulting
columns-per-measure value is the non-integral rational 64 / 3 (denominator 3),
used silently rather than surfaced as a configuration error. -/
theorem claim_C6_counterexample :
    (setTimeSignature 4 3 initialState).diags = []
    ∧ (setTimeSignature 4 3 initialState).events
        = [Event.timeSignatureChanged 4 3]
    ∧ getMaxColumns (setTimeSignature 4 3 initialState).state = 64 / 3
    ∧ (getMaxColumns (setTimeSignature 4 3 initialState).state).den = 3 := by
  norm_num [setTimeSignature, initialState, getMaxColumns]

/-- C6 amended: setTimeSignature validates positivity only — any positive
numerator and denominator are accepted with no diagnostic, without checking
that the subdivision note value is a multiple of the denominator — and when
it is a multiple (S = D * k), the columns-per-measure computation yields the
positive integer N * k exactly (no truncation involved). -/
theorem claim_C6 (N D S k : ℕ) (s : PlayerState)
    (h1 : s.isPlaying = false) (h2 : s.isPaused = false)
    (hN : 0 < N) (hD : 0 < D) (hk : 0 < k)
    (hsub : s.subdivisionNoteValue = (S : ℚ)) (hSk : S = D * k) :
    (setTimeSignature (N : ℚ) (D : ℚ) s).diags = []
    ∧ (setTimeSignature (N : ℚ) (D : ℚ) s).events
        = [Event.timeSignatureChanged (N : ℚ) (D : ℚ)]
    ∧ getMaxColumns (setTimeSignature (N : ℚ) (D : ℚ) s).state
        = ((N * k : ℕ) : ℚ)
    ∧ 0 < N * k := by
  have hN0 : ¬ ((N : ℚ) ≤ 0) := by
    rw [not_le]
    exact_mod_cast hN
  have hD0 : ¬ ((D : ℚ) ≤ 0) := by
    rw [not_le]
    exact_mod_cast hD
  have hDQ : (D : ℚ) ≠ 0 := Nat.cast_ne_zero.mpr hD.ne'
  refine ⟨?_, ?_, ?_, Nat.mul_pos hN hk⟩ <;>
    simp [setTimeSignature, h1, h2, hN0, hD0, getMaxColumns, hsub, hSk] <;>
    push_cast <;>
    field_simp <;>
    ring

/-- C6 witness: a 6/8 meter with sixteenth-note cells in the initial state is
accepted and yields the positive integer column count 12. -/
theorem claim_C6_witness :
    initialState.isPlaying = false ∧ initialState.isPaused = false
    ∧ 0 < 6 ∧ 0 < 8 ∧ 0 < 2
    ∧ initialState.subdivisionNoteValue = ((16 : ℕ) : ℚ)
    ∧ (16 : ℕ) = 8 * 2
    ∧ ((setTimeSignature ((6 : ℕ) : ℚ) ((8 : ℕ) : ℚ) initialState).diags = []
        ∧ (setTimeSignature ((6 : ℕ) : ℚ) ((8 : ℕ) : ℚ) initialState).events
            = [Event.timeSignatureChanged ((6 : ℕ) : ℚ) ((8 : ℕ) : ℚ)]
        ∧ getMaxColumns
            (setTimeSignature ((6 : ℕ) : ℚ) ((8 : ℕ) : ℚ) initialState).state
            = ((6 * 2 : ℕ) : ℚ)
        ∧ 0 < 6 * 2) :=
  ⟨rfl, rfl, by norm_num, by norm_num, by norm_num, by norm_num [initialState],
    by norm_num,
    claim_C6 6 8 16 2 initialState rfl rfl (by norm_num) (by norm_num)
      (by norm_num) (by norm_num [initialState]) (by norm_num)⟩

/-- C2: for an unmuted track whose cell map holds a Combined placement at the
scheduled column, the scheduler issues exactly two trigger commands — the
primary component at the track gain and the accent component with the accent
amplitude multiplier applied on top of the track gain — both starting exactly
at the stored deadline; for a single placement it issues exactly one trigger
at the track gain and that deadline. -/
theorem claim_C2 (tr1 tr2 : Track) (col : Int) (deadline : ℚ)
    (p a sa : Asset) (m : ℚ)
    (h1 : tr1.isMuted = false) (h2 : tr2.isMuted = false)
    (hc : alGet col tr1.cells = some (Placement.combined p a m))
    (hs : alGet col tr2.cells = some (Placement.single sa)) :
    trackTriggers tr1 col deadline
      = [⟨p, tr1.gain, deadline⟩, ⟨a, tr1.gain * m, deadline⟩]
    ∧ trackTriggers tr2 col deadline = [⟨sa, tr2.gain, deadline⟩] := by
  constructor <;> simp [trackTriggers, h1, h2, hc, hs, triggersFor]

/-- C2 witness: one combined and one single placement at column 0. -/
theorem claim_C2_witness :
    (Track.isMuted ⟨1, [(0, Placement.combined 5 6 3)], false, 1⟩ = false)
    ∧ (Track.isMuted ⟨1, [(0, Placement.single 7)], false, 1⟩ = false)
    ∧ alGet 0 (Track.cells ⟨1, [(0, Placement.combined 5 6 3)], false, 1⟩)
        = some (Placement.combined 5 6 3)
    ∧ alGet 0 (Track.cells ⟨1, [(0, Placement.single 7)], false, 1⟩)
        = some (Placement.single 7)
    ∧ (trackTriggers ⟨1, [(0, Placement.combined 5 6 3)], false, 1⟩ 0 2
        = [⟨5, 1, 2⟩, ⟨6, 1 * 3, 2⟩]
      ∧ trackTriggers ⟨1, [(0, Placement.single 7)], false, 1⟩ 0 2
        = [⟨7, 1, 2⟩]) :=
  ⟨rfl, rfl, by decide, by decide,
    claim_C2 ⟨1, [(0, Placement.combined 5 6 3)], false, 1⟩
      ⟨1, [(0, Placement.single 7)], false, 1⟩ 0 2 5 6 7 3 rfl rfl
      (by decide) (by decide)⟩

/-- C10: in every state, addTrack with an id already present in the registry
is rejected: the whole state (in particular the registry, so the existing
track keeps its cells, gain and mute flag) is unchanged, the
already-exists diagnostic is reported and no notification is raised. -/
theorem claim_C10 (s : PlayerState) (id : String) (tr : Track)
    (h : alGet id s.tracks = some tr) :
    (addTrack id s).state = s ∧ (addTrack id s).events = []
    ∧ (addTrack id s).diags = [Diag.warnTrackExists] := by
  simp [addTrack, h]

/-- C10 witness: adding the track kick twice from the initial state. -/
theorem claim_C10_witness :
    alGet "kick" (addTrack "kick" initialState).state.tracks = some newTrack
    ∧ ((addTrack "kick" (addTrack "kick" initialState).state).state
        = (addTrack "kick" initialState).state
      ∧ (addTrack "kick" (addTrack "kick" initialState).state).events = []
      ∧ (addTrack "kick" (addTrack "kick" initialState).state).diags
        = [Diag.warnTrackExists]) :=
  ⟨by decide, claim_C10 (addTrack "kick" initialState).state "kick" newTrack
    (by decide)⟩

/-- The rejection behaviour the six state-guarded operations share while the
player is playing or paused: state untouched, no notification raised, exactly
the corresponding while-playing diagnostic reported. -/
def stoppedOnlyGuard (s : PlayerState) (b n d v : ℚ) (id : String)
    (col : Int) (p : Placement) : Prop :=
  ((setBPM b s).state = s ∧ (setBPM b s).events = []
    ∧ (setBPM b s).diags = [Diag.warnBpmWhilePlaying])
  ∧ ((setTimeSignature n d s).state = s ∧ (setTimeSignature n d s).events = []
    ∧ (setTimeSignature n d s).diags = [Diag.warnTimeSigWhilePlaying])
  ∧ ((setSubdivisionNoteValue v s).state = s
    ∧ (setSubdivisionNoteValue v s).events = []
    ∧ (setSubdivisionNoteValue v s).diags = [Diag.warnSubdivisionWhilePlaying])
  ∧ ((removeTrack id s).state = s ∧ (removeTrack id s).events = []
    ∧ (removeTrack id s).diags = [Diag.warnRemoveTrackWhilePlaying])
  ∧ ((addAudioToGrid id col p s).state = s
    ∧ (addAudioToGrid id col p s).events = []
    ∧ (addAudioToGrid id col p s).diags = [Diag.warnAddAudioWhilePlaying])
  ∧ ((removeAudioFromGrid id col s).state = s
    ∧ (removeAudioFromGrid id col s).events = []
    ∧ (removeAudioFromGrid id col s).diags = [Diag.warnRemoveAudioWhilePlaying])

/-- C1 counterexample: addTrack, although listed among the Stopped-only
operations, carries no state guard in the source: invoked with a fresh id in
the Playing state reached by play from the initial state, it mutates the
track registry and raises the trackAdded notification. -/
theorem claim_C1_counterexample :
    (play 0 initialState).state.isPlaying = true
    ∧ (addTrack "t" (play 0 initialState).state).state.tracks
        ≠ (play 0 initialState).state.tracks
    ∧ (addTrack "t" (play 0 initialState).state).events
        = [Event.trackAdded "t"] := by
  refine ⟨rfl, ?_, by decide⟩
  decide

/-- C1 amended: every state-guarded operation — setBPM, setTimeSignature,
setSubdivisionNoteValue, removeTrack, addAudioToGrid, removeAudioFromGrid,
but not addTrack, which the source leaves unguarded — when invoked while the
player is Playing or Paused is rejected: the whole state equals its pre-call
value, a diagnostic is reported and no notification is raised. -/
theorem claim_C1 (s : PlayerState)
    (h : s.isPlaying = true ∨ s.isPaused = true)
    (b n d v : ℚ) (id : String) (col : Int) (p : Placement) :
    stoppedOnlyGuard s b n d v id col p := by
  have hg : (s.isPlaying || s.isPaused) = true := by
    rcases h with h | h <;> simp [h]
  unfold stoppedOnlyGuard
  simp [setBPM, setTimeSignature, setSubdivisionNoteValue, removeTrack,
    addAudioToGrid, removeAudioFromGrid, hg]

/-- C1 witness: the Playing state reached by play from the initial state
rejects all six guarded operations. -/
theorem claim_C1_witness :
    ((play 0 initialState).state.isPlaying = true
      ∨ (play 0 initialState).state.isPaused = true)
    ∧ stoppedOnlyGuard (play 0 initialState).state 90 3 4 8 "t" 2
        (Placement.single 0) :=
  ⟨Or.inl rfl,
    claim_C1 (play 0 initialState).state (Or.inl rfl) 90 3 4 8 "t" 2
      (Placement.single 0)⟩

/-- C3: pause invoked while Playing clears the whole set of in-flight
triggered sounds and snapshots the elapsed playback position (the current
cell offset plus the elapsed fraction of the current cell, clamped at zero);
a subsequent play invoked in the resulting Paused state returns to Playing
with the column pointer, the next-trigger deadline and the stored position
all unchanged (no reset to the start); pause in any non-Playing state changes
nothing and raises nothing. -/
theorem claim_C3 (s s2 : PlayerState) (now now2 now3 : ℚ)
    (h : s.isPlaying = true) (h2 : s2.isPlaying = false) :
    (pause now s).state.scheduledSources = []
    ∧ (pause now s).state.isPlaying = false
    ∧ (pause now s).state.isPaused = true
    ∧ (pause now s).events = [Event.pause]
    ∧ (pause now s).state.playbackTime =
        (if (s.currentCellIndex : ℚ) * calculateCellDuration s
              + (now - (s.nextCellTime - calculateCellDuration s)) < 0 then 0
          else (s.currentCellIndex : ℚ) * calculateCellDuration s
              + (now - (s.nextCellTime - calculateCellDuration s)))
    ∧ (play now2 (pause now s).state).state.currentCellIndex
        = s.currentCellIndex
    ∧ (play now2 (pause now s).state).state.nextCellTime = s.nextCellTime
    ∧ (play now2 (pause now s).state).state.playbackTime
        = (pause now s).state.playbackTime
    ∧ (play now2 (pause now s).state).state.isPlaying = true
    ∧ (play now2 (pause now s).state).state.isPaused = false
    ∧ (pause now3 s2).state = s2
    ∧ (pause now3 s2).events = []
    ∧ (pause now3 s2).diags = [] := by
  simp [pause, play, h, h2]

/-- C3 witness: the Playing state reached by play at time 0 from the initial
state, and the initial (Stopped) state for the no-op part. -/
theorem claim_C3_witness :
    (play 0 initialState).state.isPlaying = true
    ∧ initialState.isPlaying = false
    ∧ ((pause 1 (play 0 initialState).state).state.scheduledSources = []
      ∧ (pause 1 (play 0 initialState).state).state.isPlaying = false
      ∧ (pause 1 (play 0 initialState).state).state.isPaused = true
      ∧ (pause 1 (play 0 initialState).state).events = [Event.pause]
      ∧ (pause 1 (play 0 initialState).state).state.playbackTime =
          (if ((play 0 initialState).state.currentCellIndex : ℚ)
                  * calculateCellDuration (play 0 initialState).state
                + (1 - ((play 0 initialState).state.nextCellTime
                  - calculateCellDuration (play 0 initialState).state)) < 0
            then 0
            else ((play 0 initialState).state.currentCellIndex : ℚ)
                  * calculateCellDuration (play 0 initialState).state
                + (1 - ((play 0 initialState).state.nextCellTime
                  - calculateCellDuration (play 0 initialState).state)))
      ∧ (play 2 (pause 1 (play 0 initialState).state).state).state.currentCellIndex
          = (play 0 initialState).state.currentCellIndex
      ∧ (play 2 (pause 1 (play 0 initialState).state).state).state.nextCellTime
          = (play 0 initialState).state.nextCellTime
      ∧ (play 2 (pause 1 (play 0 initialState).state).state).state.playbackTime
          = (pause 1 (play 0 initialState).state).state.playbackTime
      ∧ (play 2 (pause 1 (play 0 initialState).state).state).state.isPlaying = true
      ∧ (play 2 (pause 1 (play 0 initialState).state).state).state.isPaused = false
      ∧ (pause 3 initialState).state = initialState
      ∧ (pause 3 initialState).events = []
      ∧ (pause 3 initialState).diags = []) :=
  ⟨rfl, rfl,
    claim_C3 (play 0 initialState).state initialState 1 2 3 rfl rfl⟩

/-- C7: for an existing track and a volume inside the unit interval, running
setTrackVolume then mute then unmute leaves the live gain exactly at that
volume: the mute step drops the live gain to 0 while keeping the stored
restore-volume, and the unmute step re-applies the stored restore-volume. -/
theorem claim_C7 (s : PlayerState) (id : String) (tr : Track) (v : ℚ)
    (h : alGet id s.tracks = some tr) (h0 : 0 ≤ v) (h1 : v ≤ 1) :
    ((alGet id (setTrackMuted id true
          (setTrackVolume id v s).state).state.tracks).map Track.gain
        = some 0)
    ∧ ((alGet id (setTrackMuted id true
          (setTrackVolume id v s).state).state.tracks).map Track.lastVolume
        = some v)
    ∧ ((alGet id (setTrackMuted id false (setTrackMuted id true
          (setTrackVolume id v s).state).state).state.tracks).map Track.gain
        = some v) := by
  have hlt : ¬ (v < 0) := not_lt.mpr h0
  have hgt : ¬ (v > 1) := not_lt.mpr h1
  simp [setTrackVolume, setTrackMuted, h, hlt, hgt, alGet_alSet_self]

/-- C7 witness: track kick added to the initial state, volume 3 / 5. -/
theorem claim_C7_witness :
    alGet "kick" (addTrack "kick" initialState).state.tracks = some newTrack
    ∧ (0 : ℚ) ≤ 3 / 5 ∧ (3 : ℚ) / 5 ≤ 1
    ∧ (((alGet "kick" (setTrackMuted "kick" true
            (setTrackVolume "kick" (3 / 5)
              (addTrack "kick" initialState).state).state).state.tracks).map
          Track.gain = some 0)
      ∧ ((alGet "kick" (setTrackMuted "kick" true
            (setTrackVolume "kick" (3 / 5)
              (addTrack "kick" initialState).state).state).state.tracks).map
          Track.lastVolume = some (3 / 5))
      ∧ ((alGet "kick" (setTrackMuted "kick" false (setTrackMuted "kick" true
            (setTrackVolume "kick" (3 / 5)
              (addTrack "kick" initialState).state).state).state).state.tracks).map
          Track.gain = some (3 / 5))) :=
  ⟨by decide, by norm_num, by norm_num,
    claim_C7 (addTrack "kick" initialState).state "kick" newTrack (3 / 5)
      (by decide) (by norm_num) (by norm_num)⟩

/-- C8: stop is idempotent: from Playing or Paused the first call dispatches
exactly the stop notification followed by the gridCellChanged notification
with column index -1, resets the column pointer to -1, the elapsed position
to 0 and clears the in-flight sounds; the second call changes no state and
raises nothing; and stop invoked while already Stopped is a no-op. -/
theorem claim_C8 (s s2 : PlayerState)
    (h : s.isPlaying = true ∨ s.isPaused = true)
    (h2 : s2.isPlaying = false) (h3 : s2.isPaused = false) :
    (stop s).events = [Event.stop, Event.gridCellChanged (-1) 0]
    ∧ (stop s).state.currentCellIndex = -1
    ∧ (stop s).state.playbackTime = 0
    ∧ (stop s).state.isPlaying = false
    ∧ (stop s).state.isPaused = false
    ∧ (stop s).state.scheduledSources = []
    ∧ (stop (stop s).state).state = (stop s).state
    ∧ (stop (stop s).state).events = []
    ∧ (stop (stop s).state).diags = []
    ∧ (stop s2).state = s2 ∧ (stop s2).events = [] := by
  have hcond : (!s.isPlaying && !s.isPaused) = false := by
    rcases h with h | h <;> simp [h]
  simp [stop, hcond, h2, h3]

/-- C8 witness: the Playing state reached by play from the initial state, and
the initial (Stopped) state for the no-op part. -/
theorem claim_C8_witness :
    ((play 0 initialState).state.isPlaying = true
      ∨ (play 0 initialState).state.isPaused = true)
    ∧ initialState.isPlaying = false
    ∧ initialState.isPaused = false
    ∧ ((stop (play 0 initialState).state).events
        = [Event.stop, Event.gridCellChanged (-1) 0]
      ∧ (stop (play 0 initialState).state).state.currentCellIndex = -1
      ∧ (stop (play 0 initialState).state).state.playbackTime = 0
      ∧ (stop (play 0 initialState).state).state.isPlaying = false
      ∧ (stop (play 0 initialState).state).state.isPaused = false
      ∧ (stop (play 0 initialState).state).state.scheduledSources = []
      ∧ (stop (stop (play 0 initialState).state).state).state
          = (stop (play 0 initialState).state).state
      ∧ (stop (stop (play 0 initialState).state).state).events = []
      ∧ (stop (stop (play 0 initialState).state).state).diags = []
      ∧ (stop initialState).state = initialState
      ∧ (stop initialState).events = []) :=
  ⟨Or.inl rfl, rfl, rfl,
    claim_C8 (play 0 initialState).state initialState (Or.inl rfl) rfl rfl⟩

/-- The transport flag invariant: the playing and paused flags are never
both set. -/
def flagsOk (s : PlayerState) : Prop :=
  s.isPlaying = false ∨ s.isPaused = false

/-- stop preserves the flag invariant. -/
theorem flagsOk_stop (s : PlayerState) (h : flagsOk s) : flagsOk (stop s).state := by
  unfold stop
  split
  · exact h
  · exact Or.inl rfl

/-- The scheduler loop preserves the flag invariant. -/
theorem flagsOk_schedLoop (cd maxCols now : ℚ) :
    ∀ (fuel : Nat) (s : PlayerState) (evs : List Event) (tgs : List Trigger),
      flagsOk s → flagsOk (schedLoop cd maxCols now fuel s evs tgs).state := by
  intro fuel
  induction fuel with
  | zero => intro s evs tgs h; exact h
  | succ n ih =>
    intro s evs tgs h
    rw [schedLoop]
    split
    · dsimp only
      split
      · exact flagsOk_stop _ h
      · exact ih _ _ _ h
    · exact h

/-- Every reachable state satisfies the flag invariant. -/
theorem flagsOk_reachable {s : PlayerState} (h : Reachable s) : flagsOk s := by
  induction h with
  | init => exact Or.inl rfl
  | rplay now a ih =>
    unfold play
    split
    · exact ih
    · exact Or.inr rfl
  | rpause now a ih =>
    unfold pause
    split
    · exact ih
    · exact Or.inl rfl
  | rstop a ih => exact flagsOk_stop _ ih
  | rsetBPM b a ih =>
    unfold setBPM
    repeat' split
    all_goals exact ih
  | rsetTimeSignature n d a ih =>
    unfold setTimeSignature
    repeat' split
    all_goals exact ih
  | rsetSubdivisionNoteValue v a ih =>
    unfold setSubdivisionNoteValue
    repeat' split
    all_goals exact ih
  | rsetLooping l a ih => exact ih
  | raddTrack id a ih =>
    unfold addTrack
    repeat' split
    all_goals exact ih
  | rremoveTrack id a ih =>
    unfold removeTrack
    repeat' split
    all_goals exact ih
  | raddAudioToGrid id col p a ih =>
    unfold addAudioToGrid
    repeat' split
    all_goals exact ih
  | rremoveAudioFromGrid id col a ih =>
    unfold removeAudioFromGrid
    repeat' split
    all_goals exact ih
  | rsetTrackVolume id v a ih =>
    unfold setTrackVolume
    repeat' split
    all_goals exact ih
  | rsetTrackMuted id m a ih =>
    unfold setTrackMuted
    repeat' split
    all_goals exact ih
  | rsetMasterVolume v a ih => exact ih
  | rschedule fuel now a ih =>
    unfold scheduleAudio
    split
    · exact ih
    · exact flagsOk_schedLoop _ _ _ _ _ _ _ ih
  | rsourceEnded t a ih => exact ih

/-- C9: in every state reachable from the initial state by any sequence of
public operations, scheduler ticks and source-completion callbacks, exactly
one of Stopped, Playing, Paused holds: the flag pair is never true-true, so
the three-way partition reported by getStatus is preserved. -/
theorem claim_C9 (s : PlayerState) (h : Reachable s) :
    (s.isPlaying = false ∧ s.isPaused = false)
    ∨ (s.isPlaying = true ∧ s.isPaused = false)
    ∨ (s.isPlaying = false ∧ s.isPaused = true) := by
  have hf := flagsOk_reachable h
  cases hp : s.isPlaying <;> cases hq : s.isPaused <;> simp_all [flagsOk]

/-- C9 witness: the initial state is reachable and sits in the Stopped cell
of the partition. -/
theorem claim_C9_witness :
    Reachable initialState
    ∧ ((initialState.isPlaying = false ∧ initialState.isPaused = false)
      ∨ (initialState.isPlaying = true ∧ initialState.isPaused = false)
      ∨ (initialState.isPlaying = false ∧ initialState.isPaused = true)) :=
  ⟨Reachable.init, claim_C9 initialState Reachable.init⟩

end MTP
